import Mathlib

/-!
Verification of the polyglot-task-queue Python worker
(src/polyglot-task-queue/worker-python/main.py) against its design
specification.

The development is a shallow embedding of the worker:

* JSON values are modelled by `JValue`; `json_loads` is a model of Python
  json.loads (the fragment without surrogate-pair handling; a superset of
  number syntax is tolerated, which is irrelevant to the claims because
  every general theorem conditions on the value `json_loads` returns and
  every concrete input uses plain syntax).
* Python exceptions are modelled by `PyErr` (message and exception class
  name); fallible steps return `Except PyErr`.
* pandas DataFrames are modelled by `Table`; `read_csv` models
  pandas.read_csv with its default options on the fragment the worker
  exercises: comma separator, first line as header, truly blank lines
  skipped, empty fields as missing values, per-column numeric dtype
  inference (a column is numeric when every non-missing field parses as a
  decimal number; a nonempty all-missing column is float64 and hence
  numeric), rows with more fields than the header a parser error, shorter
  rows padded with missing values.  Quoting, date/bool inference and
  scientific notation are outside the modelled fragment and outside every
  claim.
* floats are modelled exactly by `ℚ`; the NaN results pandas produces on
  empty data are modelled by `PFloat.nan`.  pandas Series.std returns the
  square root of the ddof-1 variance; the embedding stores that variance
  (the square of the reported standardDeviation) in the field `stdSq` so
  that all arithmetic stays in exact rationals.  Since the square root is
  injective on nonnegative reals, equality or inequality of reported
  standard deviations is equivalent to that of the stored squares.
* wall-clock fields (timestamp, completedAt) and tracing spans are pure
  observability and are omitted from the embedding; no claim depends on
  them.  Publishing to the broker is modelled as reliable, so a run of the
  consumer for one delivery is a pure function from the message body to
  the chronological log of published messages plus the acknowledgment.
-/

/-- A decoded JSON value, as returned by Python json.loads.  Objects keep
their key/value pairs in parse order; Python dict semantics (last duplicate
key wins) are realised by `jget`. -/
inductive JValue where
  | null
  | bool (b : Bool)
  | num (q : ℚ)
  | str (s : String)
  | arr (xs : List JValue)
  | obj (kvs : List (String × JValue))

/-- A Python exception, reduced to its message and its class name. -/
structure PyErr where
  msg : String
  kind : String
deriving DecidableEq

def mkStr (cs : List Char) : String := ⟨cs⟩

/-- Python dict lookup on an object decoded from JSON: the last binding of
a duplicated key wins, as in json.loads. -/
def jget (kvs : List (String × JValue)) (k : String) : Option JValue :=
  match kvs with
  | [] => none
  | (k2, v) :: rest =>
    match jget rest k with
    | some r => some r
    | none => if k2 == k then some v else none

def jsonWs (cs : List Char) : List Char :=
  cs.dropWhile (fun c => c == ' ' || c == '\t' || c == '\n' || c == '\r')

def unescapeChar : Char → Option Char
  | '"' => some '"'
  | '\\' => some '\\'
  | '/' => some '/'
  | 'b' => some (Char.ofNat 8)
  | 'f' => some (Char.ofNat 12)
  | 'n' => some '\n'
  | 'r' => some '\r'
  | 't' => some '\t'
  | _ => none

def hexDigitVal (c : Char) : Option Nat :=
  if c.isDigit then some (c.toNat - 48)
  else if 'a' ≤ c ∧ c ≤ 'f' then some (c.toNat - 87)
  else if 'A' ≤ c ∧ c ≤ 'F' then some (c.toNat - 55)
  else none

/-- Body of a JSON string after the opening quote: returns the decoded
characters and the input remaining after the closing quote. -/
def parseJStrBody : List Char → Option (List Char × List Char)
  | [] => none
  | '"' :: rest => some ([], rest)
  | '\\' :: rest =>
    match rest with
    | 'u' :: h1 :: h2 :: h3 :: h4 :: rest2 =>
      match hexDigitVal h1, hexDigitVal h2, hexDigitVal h3, hexDigitVal h4 with
      | some a, some b, some c, some d =>
        match parseJStrBody rest2 with
        | some (s, r) => some (Char.ofNat (((a * 16 + b) * 16 + c) * 16 + d) :: s, r)
        | none => none
      | _, _, _, _ => none
    | c :: rest2 =>
      match unescapeChar c with
      | some e =>
        match parseJStrBody rest2 with
        | some (s, r) => some (e :: s, r)
        | none => none
      | none => none
    | [] => none
  | c :: rest =>
    match parseJStrBody rest with
    | some (s, r) => some (c :: s, r)
    | none => none

def digitsToNat (cs : List Char) : Nat :=
  cs.foldl (fun a c => 10 * a + (c.toNat - 48)) 0

/-- The fractional and exponent part of a JSON number applied to its
integer part, in exact rational arithmetic. -/
def parseJNumSlow (ip : List Char) (cs2 : List Char) : ℚ × List Char :=
  let fp := match cs2 with
    | '.' :: r =>
      let d := r.span Char.isDigit
      (((digitsToNat d.1 : ℚ) / ((10 ^ d.1.length : ℕ) : ℚ)), d.2)
    | r => ((0 : ℚ), r)
  let base := (digitsToNat ip : ℚ) + fp.1
  let ep := match fp.2 with
      | 'e' :: r =>
        let esp := match r with
          | '-' :: rr => ((true : Bool), rr)
          | '+' :: rr => (false, rr)
          | rr => (false, rr)
        let ed := esp.2.span Char.isDigit
        if ed.1.isEmpty then (base, fp.2)
        else
          let p := ((10 ^ digitsToNat ed.1 : ℕ) : ℚ)
          (if esp.1 then base / p else base * p, ed.2)
      | 'E' :: r =>
        let esp := match r with
          | '-' :: rr => ((true : Bool), rr)
          | '+' :: rr => (false, rr)
          | rr => (false, rr)
        let ed := esp.2.span Char.isDigit
        if ed.1.isEmpty then (base, fp.2)
        else
          let p := ((10 ^ digitsToNat ed.1 : ℕ) : ℚ)
          (if esp.1 then base / p else base * p, ed.2)
      | r => (base, r)
  ep

/-- JSON number.  Returns the exact rational value and the remaining
input.  A plain unsigned integer is returned as a bare cast, without any
rational arithmetic. -/
def parseJNum (cs : List Char) : Option (ℚ × List Char) :=
  let sp := match cs with
    | '-' :: r => (true, r)
    | r => (false, r)
  let ipp := sp.2.span Char.isDigit
  if ipp.1.isEmpty then none
  else
    let vp : ℚ × List Char := match ipp.2 with
      | '.' :: r => parseJNumSlow ipp.1 ('.' :: r)
      | 'e' :: r => parseJNumSlow ipp.1 ('e' :: r)
      | 'E' :: r => parseJNumSlow ipp.1 ('E' :: r)
      | r => ((digitsToNat ipp.1 : ℚ), r)
    some (if sp.1 then -vp.1 else vp.1, vp.2)

mutual

/-- Recursive-descent JSON value, with fuel for termination; the fuel given
by `json_loads` always suffices. -/
def parseVal : Nat → List Char → Option (JValue × List Char)
  | 0, _ => none
  | fuel + 1, cs =>
    match jsonWs cs with
    | 'n' :: 'u' :: 'l' :: 'l' :: rest => some (.null, rest)
    | 't' :: 'r' :: 'u' :: 'e' :: rest => some (.bool true, rest)
    | 'f' :: 'a' :: 'l' :: 's' :: 'e' :: rest => some (.bool false, rest)
    | '"' :: rest =>
      match parseJStrBody rest with
      | some (s, r) => some (.str (mkStr s), r)
      | none => none
    | '[' :: rest =>
      match jsonWs rest with
      | ']' :: r2 => some (.arr [], r2)
      | r2 =>
        match parseItems fuel r2 with
        | some (vs, r3) => some (.arr vs, r3)
        | none => none
    | '\x7b' :: rest =>
      match jsonWs rest with
      | '\x7d' :: r2 => some (.obj [], r2)
      | r2 =>
        match parseFields fuel r2 with
        | some (ms, r3) => some (.obj ms, r3)
        | none => none
    | other =>
      match parseJNum other with
      | some (q, r) => some (.num q, r)
      | none => none

def parseItems : Nat → List Char → Option (List JValue × List Char)
  | 0, _ => none
  | fuel + 1, cs =>
    match parseVal fuel cs with
    | none => none
    | some (v, r) =>
      match jsonWs r with
      | ',' :: r2 =>
        match parseItems fuel r2 with
        | some (vs, r3) => some (v :: vs, r3)
        | none => none
      | ']' :: r2 => some ([v], r2)
      | _ => none

def parseFields : Nat → List Char → Option (List (String × JValue) × List Char)
  | 0, _ => none
  | fuel + 1, cs =>
    match jsonWs cs with
    | '"' :: rest =>
      match parseJStrBody rest with
      | none => none
      | some (k, r) =>
        match jsonWs r with
        | ':' :: r2 =>
          match parseVal fuel r2 with
          | none => none
          | some (v, r3) =>
            match jsonWs r3 with
            | ',' :: r4 =>
              match parseFields fuel r4 with
              | some (ms, r5) => some ((mkStr k, v) :: ms, r5)
              | none => none
            | '\x7d' :: r4 => some ([(mkStr k, v)], r4)
            | _ => none
        | _ => none
    | _ => none

end

def jsonDecodeErr : PyErr := ⟨"Expecting value", "JSONDecodeError"⟩

/-- Model of Python json.loads: parse one value, demand that only
whitespace remains. -/
def json_loads (s : String) : Except PyErr JValue :=
  match parseVal (2 * s.data.length + 2) s.data with
  | some (v, rest) => if (jsonWs rest).isEmpty then .ok v else .error jsonDecodeErr
  | none => .error jsonDecodeErr


/-! ## The tabular data model (the fragment of pandas the worker uses) -/

/-- A scalar cell value of a non-numeric (object-dtype) column. -/
inductive Scalar where
  | num (q : ℚ)
  | str (s : String)
deriving DecidableEq

/-- One DataFrame column: a numeric column keeps rational values with
missing entries (NaN); an object column keeps scalar cells with missing
entries. -/
inductive Col where
  | numeric (vals : List (Option ℚ))
  | object (vals : List (Option Scalar))
deriving DecidableEq

/-- A DataFrame: named columns in order, plus the row count. -/
structure Table where
  cols : List (String × Col)
  nRows : Nat
deriving DecidableEq

def splitOnChar (c : Char) : List Char → List (List Char)
  | [] => [[]]
  | x :: xs =>
    let r := splitOnChar c xs
    if x = c then [] :: r
    else
      match r with
      | [] => [[x]]
      | y :: ys => (x :: y) :: ys

def isWsChar (c : Char) : Bool :=
  c == ' ' || c == '\t' || c == '\n' || c == '\r' || c == '\x0b' || c == '\x0c'

/-- Python str.strip on the whitespace fragment the worker can meet. -/
def trimChars (cs : List Char) : List Char :=
  ((cs.dropWhile isWsChar).reverse.dropWhile isWsChar).reverse

/-- The numeric conversion pandas applies to a CSV field: an optionally
signed decimal integer or decimal fraction.  Scientific notation and
surrounding whitespace are outside the modelled fragment.  A plain
unsigned integer is returned as a bare cast, without rational
arithmetic. -/
def csvNum (s : String) : Option ℚ :=
  let sp := match s.data with
    | '-' :: r => (true, r)
    | '+' :: r => (false, r)
    | r => (false, r)
  let ipp := sp.2.span Char.isDigit
  let core : Option ℚ := match ipp.2 with
    | [] => if ipp.1.isEmpty then none else some ((digitsToNat ipp.1 : ℕ) : ℚ)
    | '.' :: r2 =>
      let fpp := r2.span Char.isDigit
      if !fpp.2.isEmpty then none
      else if ipp.1.isEmpty && fpp.1.isEmpty then none
      else some ((digitsToNat ipp.1 : ℚ) + (digitsToNat fpp.1 : ℚ) / ((10 ^ fpp.1.length : ℕ) : ℚ))
    | _ => none
  match core with
  | none => none
  | some q => some (if sp.1 then -q else q)

/-- Model of pandas.read_csv with default options on the fragment the
worker exercises (see the header comment): comma-separated, first
non-blank line is the header, blank lines skipped, empty fields missing,
a data row with more fields than the header is a parser error, shorter
rows are padded with missing fields.  A column whose non-missing fields
all parse numerically is numeric (so a nonempty all-missing column is
numeric, like the float64 all-NaN column pandas produces); with zero data
rows every column is object dtype, as in pandas. -/
def read_csv (s : String) : Except PyErr Table :=
  let lines := (splitOnChar '\n' s.data).filter (fun l => !l.isEmpty)
  match lines with
  | [] => .error ⟨"No columns to parse from file", "EmptyDataError"⟩
  | header :: dataLines =>
    let names := (splitOnChar ',' header).map mkStr
    let rows := dataLines.map (fun l => (splitOnChar ',' l).map mkStr)
    if rows.any (fun r => names.length < r.length) then
      .error ⟨"Error tokenizing data", "ParserError"⟩
    else
      let cellsAt := fun (j : Nat) => rows.map (fun r =>
        let c := r.getD j ""
        if c = "" then (none : Option String) else some c)
      let colAt := fun (j : Nat) =>
        let cells := cellsAt j
        if rows.isEmpty then Col.object []
        else if cells.all (fun c =>
            match c with
            | none => true
            | some v => (csvNum v).isSome) then
          Col.numeric (cells.map (fun c => c.bind csvNum))
        else
          Col.object (cells.map (fun c => c.map Scalar.str))
      .ok ⟨names.enum.map (fun p => (p.2, colAt p.1)), rows.length⟩

/-- A record cell in the modelled fragment of the pandas DataFrame
constructor: null is a missing value, numbers and strings are scalars;
booleans and nested values are outside the fragment (no claim exercises
them). -/
def recScalar : JValue → Option (Option Scalar)
  | .null => some none
  | .num q => some (some (.num q))
  | .str s => some (some (.str s))
  | _ => none

def asRecord : JValue → Option (List (String × JValue))
  | .obj kvs => some kvs
  | _ => none

def jsonCell (r : List (String × JValue)) (k : String) : Option (Option Scalar) :=
  match jget r k with
  | none => some none
  | some v => recScalar v

/-- Column dtype inference for data coming from Python objects: a column
is numeric when it has at least one non-missing value and every
non-missing value is a number (None-only columns stay object dtype, as in
pandas). -/
def jsonColumn (recs : List (List (String × JValue))) (k : String) : Option Col :=
  match recs.mapM (fun r => jsonCell r k) with
  | none => none
  | some cells =>
    let nm := cells.filterMap id
    if !nm.isEmpty && nm.all (fun s =>
        match s with
        | .num _ => true
        | _ => false) then
      some (.numeric (cells.map (fun c =>
        match c with
        | some (.num q) => some q
        | _ => none)))
    else some (.object cells)

def dedupKeys : List String → List String → List String
  | [], _ => []
  | x :: xs, seen => if seen.contains x then dedupKeys xs seen else x :: dedupKeys xs (x :: seen)

/-- Model of pandas.DataFrame applied to a decoded JSON value, on the
array-of-records fragment: a list of flat objects with scalar values
becomes a table whose columns are the record keys in first-encountered
order, with absent keys as missing cells.  Every other shape is a
constructor error in the model (the worker then falls through to the
line-based tier; no claim exercises those shapes). -/
def df_of_json (v : JValue) : Except PyErr Table :=
  match v with
  | .arr elems =>
    match elems.mapM asRecord with
    | none => .error ⟨"DataFrame conversion outside modeled fragment", "ValueError"⟩
    | some recs =>
      let keys := dedupKeys (recs.foldr (fun r acc => r.map Prod.fst ++ acc) []) []
      match keys.mapM (fun k => (jsonColumn recs k).map (fun c => (k, c))) with
      | none => .error ⟨"DataFrame conversion outside modeled fragment", "ValueError"⟩
      | some cols => .ok ⟨cols, recs.length⟩
  | _ => .error ⟨"DataFrame constructor not properly called", "ValueError"⟩

/-- The fallback representation built at main.py:101-102: every line of
the stripped payload is stripped, blank lines are dropped, and the result
is the single object column named values. -/
def fallback_frame (s : String) : Table :=
  let lines := ((splitOnChar '\n' (trimChars s.data)).map trimChars).filter (fun l => !l.isEmpty)
  ⟨[("values", Col.object (lines.map (fun l => some (Scalar.str (mkStr l)))))], lines.length⟩

/-! ## The three parsing tiers of process_task (main.py:92-102) -/

/-- Tier 1 (main.py:94): pandas.read_csv over StringIO(data).  StringIO
raises TypeError when the payload is not a string. -/
def tier_csv (d : JValue) : Except PyErr Table :=
  match d with
  | .str s => read_csv s
  | _ => .error ⟨"initial_value must be str or None", "TypeError"⟩

/-- Tier 2 (main.py:98): pandas.DataFrame(json.loads(data)).  json.loads
raises TypeError when the payload is not a string. -/
def tier_json (d : JValue) : Except PyErr Table :=
  match d with
  | .str s =>
    match json_loads s with
    | .ok v => df_of_json v
    | .error e => .error e
  | _ => .error ⟨"the JSON object must be str, bytes or bytearray", "TypeError"⟩

/-- Tier 3 (main.py:101-102): the line-based fallback.  Calling .strip()
on a non-string payload raises AttributeError, which escapes the inner
handlers and is caught by the outer try of process_task. -/
def tier_fallback (d : JValue) : Except PyErr Table :=
  match d with
  | .str s => .ok (fallback_frame s)
  | _ => .error ⟨"object has no attribute strip", "AttributeError"⟩

/-- The tiered parse of main.py:92-102: CSV first, then the
array-of-records encoding, then the line fallback, each tried on failure
of the previous one. -/
def parse_tiers (d : JValue) : Except PyErr Table :=
  match tier_csv d with
  | .ok t => .ok t
  | .error _ =>
    match tier_json d with
    | .ok t => .ok t
    | .error _ => tier_fallback d

/-! ## Column statistics (main.py:113-134) -/

/-- A Python float result of a pandas reduction: either NaN (produced on
empty data) or an exact rational.  For the standard deviation the carried
rational is the square of the reported float (see the header comment). -/
inductive PFloat where
  | nan
  | val (q : ℚ)
deriving DecidableEq

def nonMissing (vals : List (Option ℚ)) : List ℚ := vals.filterMap id

def qSum (l : List ℚ) : ℚ := l.foldl (fun a b => a + b) 0

/-- pandas Series.mean with skipna: NaN on an empty series. -/
def seriesMean (l : List ℚ) : PFloat :=
  if l.length = 0 then .nan else .val (qSum l / (l.length : ℚ))

def insertSorted (x : ℚ) : List ℚ → List ℚ
  | [] => [x]
  | y :: ys => if x ≤ y then x :: y :: ys else y :: insertSorted x ys

def sortQ (l : List ℚ) : List ℚ := l.foldr insertSorted []

/-- pandas Series.median: middle of the sorted values, or the average of
the two middle values; NaN on an empty series. -/
def seriesMedian (l : List ℚ) : PFloat :=
  let s := sortQ l
  if s.length = 0 then .nan
  else if s.length % 2 = 1 then .val (s.getD (s.length / 2) 0)
  else .val ((s.getD (s.length / 2 - 1) 0 + s.getD (s.length / 2) 0) / 2)

/-- The square of pandas Series.std, which uses ddof = 1: the sample
variance sum((x - mean)^2) / (n - 1), NaN when fewer than two values are
present (0/0 in pandas). -/
def seriesStdSq (l : List ℚ) : PFloat :=
  if l.length ≤ 1 then .nan
  else
    let m := qSum l / (l.length : ℚ)
    .val (qSum (l.map (fun x => (x - m) * (x - m))) / ((l.length - 1 : ℕ) : ℚ))

def seriesMin : List ℚ → PFloat
  | [] => .nan
  | x :: xs => .val (xs.foldl (fun a b => if b < a then b else a) x)

def seriesMax : List ℚ → PFloat
  | [] => .nan
  | x :: xs => .val (xs.foldl (fun a b => if a < b then b else a) x)

/-- The per-column numeric profile built at main.py:117-123.  All five
reductions skip missing values; the entry is built for every numeric
column, whatever its number of non-missing values. -/
structure NumericStats where
  mean : PFloat
  median : PFloat
  stdSq : PFloat
  min : PFloat
  max : PFloat
deriving DecidableEq

def mkNumericStats (vals : List (Option ℚ)) : NumericStats :=
  let nm := nonMissing vals
  ⟨seriesMean nm, seriesMedian nm, seriesStdSq nm, seriesMin nm, seriesMax nm⟩

/-- The per-column categorical profile built at main.py:129-134. -/
structure CatStats where
  unique_count : Nat
  top_values : List (String × Nat)
deriving DecidableEq

def dedupScalars : List Scalar → List Scalar → List Scalar
  | [], _ => []
  | x :: xs, seen => if seen.contains x then dedupScalars xs seen else x :: dedupScalars xs (x :: seen)

def countOcc (l : List Scalar) (x : Scalar) : Nat := (l.filter (fun y => y == x)).length

/-- Python str() on the scalar cell values of the modelled fragment (the
integer case is the only one any categorical key of the worker can meet
besides plain strings). -/
def scalarKey : Scalar → String
  | .str s => s
  | .num q => if q.den = 1 then toString q.num else toString q

def insertByCount (x : String × Nat) : List (String × Nat) → List (String × Nat)
  | [] => [x]
  | y :: ys => if y.2 ≤ x.2 then x :: y :: ys else y :: insertByCount x ys

/-- value_counts: occurrence counts sorted by count descending, ties kept
in first-encountered order. -/
def sortByCountDesc (l : List (String × Nat)) : List (String × Nat) := l.foldr insertByCount []

def mkCatStats (vals : List (Option Scalar)) : CatStats :=
  let nm := vals.filterMap id
  let dist := dedupScalars nm []
  ⟨dist.length, (sortByCountDesc (dist.map (fun v => (scalarKey v, countOcc nm v)))).take 5⟩

/-! ## The analysis result (main.py:104-139) -/

/-- A preview cell as it appears in df.head(5).to_dict(orient=records):
missing values surface as NaN. -/
inductive PVal where
  | nan
  | num (q : ℚ)
  | str (s : String)
deriving DecidableEq

structure Summary where
  numeric : Option (List (String × NumericStats))
  categorical : Option (List (String × CatStats))
deriving DecidableEq

structure AnalysisResult where
  row_count : Nat
  column_count : Nat
  columns : List String
  summary : Summary
  preview : List (List (String × PVal))
deriving DecidableEq

/-- The value process_task returns: the analysis dict on success, or the
error dict of main.py:142-145 carrying str(e) and type(e).__name__. -/
inductive ProcResult where
  | success (a : AnalysisResult)
  | failure (error : String) (error_type : String)
deriving DecidableEq

def numericEntries (t : Table) : List (String × NumericStats) :=
  t.cols.filterMap (fun p =>
    match p.2 with
    | .numeric vals => some (p.1, mkNumericStats vals)
    | _ => none)

def catEntries (t : Table) : List (String × CatStats) :=
  t.cols.filterMap (fun p =>
    match p.2 with
    | .object vals => some (p.1, mkCatStats vals)
    | _ => none)

def cellAt : Col → Nat → PVal
  | .numeric vals, i =>
    match vals.getD i none with
    | none => .nan
    | some q => .num q
  | .object vals, i =>
    match vals.getD i none with
    | none => .nan
    | some (.num q) => .num q
    | some (.str s) => .str s

/-- The analysis of main.py:104-137: row and column counts, column names
in order, numeric and categorical profiles (each section present exactly
when it has at least one column), and the first five rows as preview. -/
def analyze (t : Table) : AnalysisResult :=
  ⟨t.nRows, t.cols.length, t.cols.map Prod.fst,
   ⟨if (numericEntries t).isEmpty then none else some (numericEntries t),
    if (catEntries t).isEmpty then none else some (catEntries t)⟩,
   (List.range (min t.nRows 5)).map (fun i => t.cols.map (fun p => (p.1, cellAt p.2 i)))⟩

/-- task_data.get(data, default empty string) at main.py:89. -/
def getData (kvs : List (String × JValue)) : JValue :=
  (jget kvs "data").getD (.str "")

/-- process_task (main.py:85-145): parse the payload through the tiers,
analyse the table; any exception escaping the tiers is caught by the
outer handler and returned as the error dict. -/
def process_task (kvs : List (String × JValue)) : ProcResult :=
  match parse_tiers (getData kvs) with
  | .ok t => .success (analyze t)
  | .error e => .failure e.msg e.kind

/-! ## The consumer loop (main.py:147-239) -/

def WORKER_NAME : String := "python-worker"

/-- A status message as published by publish_task_status (main.py:57-63),
without the wall-clock timestamp. -/
structure StatusEvent where
  taskId : JValue
  status : String
  worker : String
  extra : List (String × JValue)

/-- A result message as published at main.py:207-212, without the
wall-clock completedAt. -/
structure ResultMessage where
  taskId : JValue
  worker : String
  result : ProcResult

/-- One published message, in chronological order of publication. -/
inductive Event where
  | status (e : StatusEvent)
  | result (m : ResultMessage)

/-- The observable outcome of handling one delivery: the chronological
log of published messages and whether the delivery was acknowledged. -/
structure Outcome where
  log : List Event
  acked : Bool

def mkStatus (tid : JValue) (st : String) (extra : List (String × JValue)) : Event :=
  .status ⟨tid, st, WORKER_NAME, extra⟩

/-- Python task_type != analyze is false exactly for the JSON string
analyze. -/
def isAnalyze : Option JValue → Bool
  | some (.str s) => s == "analyze"
  | _ => false

/-- The fallible part of on_message (main.py:159-231), as a pure
computation.  An error carries the value of task_id if the name was bound
when the exception was raised (the locals() check of main.py:238); both
throw sites of the embedded fragment - json.loads at line 165 and the
attribute access task.get on a non-dict value at line 166 - precede the
binding of task_id, so the carried value there is none. -/
def consume (body : String) : Except (PyErr × Option JValue) (List Event) :=
  match json_loads body with
  | .error e => .error (e, none)
  | .ok task =>
    match task with
    | .obj kvs =>
      let task_id := (jget kvs "taskId").getD .null
      if isAnalyze (jget kvs "type") then
        .ok [mkStatus task_id "processing" [],
             .result ⟨task_id, WORKER_NAME, process_task kvs⟩]
      else
        .ok [mkStatus task_id "processing" [],
             mkStatus task_id "skipped" [("reason", .str "not an analyze task")]]
    | _ => .error (⟨"object has no attribute get", "AttributeError"⟩, none)

/-- on_message (main.py:147-239): the exception handler publishes an
error status only when task_id was bound (main.py:238); the message is
acknowledged on every path, because the handler swallows the exception
and message.process() exits normally. -/
def on_message (body : String) : Outcome :=
  match consume body with
  | .ok evs => ⟨evs, true⟩
  | .error (e, some tid) => ⟨[mkStatus tid "error" [("error", .str e.msg)]], true⟩
  | .error (_, none) => ⟨[], true⟩

def eventStatusIs (st : String) : Event → Bool
  | .status e => e.status == st
  | .result _ => false

def eventIsResult : Event → Bool
  | .result _ => true
  | _ => false

def eventTaskId : Event → JValue
  | .status e => e.taskId
  | .result m => m.taskId

def jIsNull : JValue → Bool
  | .null => true
  | _ => false

/-! ## Statistics as the specification words them (for refinement
comparison with the embedded code) -/

/-- The mean as the spec words it: arithmetic mean over the non-missing
values. -/
def specMean (l : List ℚ) : ℚ := l.sum / (l.length : ℚ)

/-- The sample variance (ddof = 1) over the non-missing values: the
square of the standard deviation pandas actually reports. -/
def specSampleVariance (l : List ℚ) : ℚ :=
  (l.map (fun x => (x - specMean l) ^ 2)).sum / ((l.length - 1 : ℕ) : ℚ)

/-- The population variance the spec asks for: the square of the
population standard deviation. -/
def specPopulationVariance (l : List ℚ) : ℚ :=
  (l.map (fun x => (x - specMean l) ^ 2)).sum / (l.length : ℚ)

/-! ## Helper lemmas -/

theorem qSum_go (a : ℚ) (l : List ℚ) : l.foldl (fun x y => x + y) a = a + l.sum := by
  induction l generalizing a with
  | nil => simp
  | cons x xs ih => simp [List.foldl_cons, ih]; ring

theorem qSum_eq_sum (l : List ℚ) : qSum l = l.sum := by
  simp [qSum, qSum_go]

/-- The outcome of on_message on a body that decodes to a JSON object:
the processing status first, then either the result (kind analyze) or the
skipped status, always acknowledged. -/
theorem on_message_obj (body : String) (kvs : List (String × JValue))
    (h : json_loads body = .ok (.obj kvs)) :
    on_message body =
      if isAnalyze (jget kvs "type") then
        ⟨[mkStatus ((jget kvs "taskId").getD .null) "processing" [],
          .result ⟨(jget kvs "taskId").getD .null, WORKER_NAME, process_task kvs⟩], true⟩
      else
        ⟨[mkStatus ((jget kvs "taskId").getD .null) "processing" [],
          mkStatus ((jget kvs "taskId").getD .null) "skipped"
            [("reason", .str "not an analyze task")]], true⟩ := by
  unfold on_message consume
  rw [h]
  cases hA : isAnalyze (jget kvs "type") <;> simp [hA]

/-- The numeric profile of the column with values 1, 2, 3, 4: the mean
and median are 5/2, the reported standard deviation is the square root of
5/3 (the ddof-1 sample variance), the min is 1 and the max is 4. -/
theorem mkNumericStats_one_to_four :
    mkNumericStats [some 1, some 2, some 3, some 4]
      = ⟨.val (5/2), .val (5/2), .val (5/3), .val 1, .val 4⟩ := by
  have h1 : nonMissing [some 1, some 2, some 3, some 4] = [1, 2, 3, 4] := rfl
  have h2 : sortQ [1, 2, 3, 4] = [1, 2, 3, 4] := by
    norm_num [sortQ, insertSorted]
  simp only [mkNumericStats, h1, NumericStats.mk.injEq]
  refine ⟨?_, ?_, ?_, ?_, ?_⟩
  · norm_num [seriesMean, qSum]
  · norm_num [seriesMedian, h2]
  · norm_num [seriesStdSq, qSum]
  · norm_num [seriesMin]
  · norm_num [seriesMax]

/-- The numeric profile of the column with values 1, 2. -/
theorem mkNumericStats_one_two :
    mkNumericStats [some 1, some 2]
      = ⟨.val (3/2), .val (3/2), .val (1/2), .val 1, .val 2⟩ := by
  have h1 : nonMissing [some 1, some 2] = [1, 2] := rfl
  have h2 : sortQ [1, 2] = [1, 2] := by
    norm_num [sortQ, insertSorted]
  simp only [mkNumericStats, h1, NumericStats.mk.injEq]
  refine ⟨?_, ?_, ?_, ?_, ?_⟩
  · norm_num [seriesMean, qSum]
  · norm_num [seriesMedian, h2]
  · norm_num [seriesStdSq, qSum]
  · norm_num [seriesMin]
  · norm_num [seriesMax]

/-! ## The claims -/

/-- C1: for a delivery whose body is not a parseable JSON envelope, the
consumer does acknowledge and does not crash, but it publishes no
StatusEvent at all - in particular no error status.  json.loads raises at
main.py:165, before task_id is bound, so the locals() guard at main.py:238
skips the error publish; the handler then swallows the exception and the
message.process() context acknowledges.  This contradicts the claimed
single error status (the code drops the task silently). -/
theorem malformed_body_acked_without_error_status :
    json_loads "not json" = .error jsonDecodeErr
  ∧ on_message "not json" = ⟨[], true⟩ :=
  ⟨rfl, rfl⟩

/-- C2: for a well-formed task whose kind is not analyze, exactly one
skipped status is published, carrying the reason, no result message is
published, and the delivery is acknowledged. -/
theorem skip_non_analyze (body : String) (kvs : List (String × JValue))
    (h1 : json_loads body = .ok (.obj kvs))
    (h2 : isAnalyze (jget kvs "type") = false) :
    (on_message body).log.filter (eventStatusIs "skipped")
      = [mkStatus ((jget kvs "taskId").getD .null) "skipped"
          [("reason", .str "not an analyze task")]]
  ∧ (on_message body).log.filter eventIsResult = []
  ∧ (on_message body).acked = true := by
  rw [on_message_obj body kvs h1, h2]
  exact ⟨rfl, rfl, rfl⟩

/-- C2 witness: a concrete task of kind resize is skipped. -/
theorem skip_non_analyze_witness :
    json_loads "\x7b\"taskId\": \"t-2\", \"type\": \"resize\"\x7d"
      = .ok (.obj [("taskId", .str "t-2"), ("type", .str "resize")])
  ∧ ((on_message "\x7b\"taskId\": \"t-2\", \"type\": \"resize\"\x7d").log.filter
        (eventStatusIs "skipped")
      = [mkStatus (.str "t-2") "skipped" [("reason", .str "not an analyze task")]]
    ∧ (on_message "\x7b\"taskId\": \"t-2\", \"type\": \"resize\"\x7d").log.filter eventIsResult = []
    ∧ (on_message "\x7b\"taskId\": \"t-2\", \"type\": \"resize\"\x7d").acked = true) :=
  ⟨rfl, skip_non_analyze _ [("taskId", .str "t-2"), ("type", .str "resize")] rfl rfl⟩

/-- C3: for a well-formed task of kind analyze, the published log is
exactly one processing status followed by exactly one result message, in
that order, both carrying the task identifier of the input task, and the
delivery is acknowledged. -/
theorem analyze_processing_then_result (body : String) (kvs : List (String × JValue))
    (h1 : json_loads body = .ok (.obj kvs))
    (h2 : isAnalyze (jget kvs "type") = true) :
    (on_message body).log
      = [mkStatus ((jget kvs "taskId").getD .null) "processing" [],
         .result ⟨(jget kvs "taskId").getD .null, WORKER_NAME, process_task kvs⟩]
  ∧ ((on_message body).log.filter (eventStatusIs "processing")).length = 1
  ∧ ((on_message body).log.filter eventIsResult).length = 1
  ∧ (on_message body).acked = true := by
  rw [on_message_obj body kvs h1, h2]
  exact ⟨rfl, rfl, rfl, rfl⟩

/-- C3 witness: a concrete analyze task publishes processing then the
result, both with taskId t-3. -/
theorem analyze_processing_then_result_witness :
    json_loads "\x7b\"taskId\": \"t-3\", \"type\": \"analyze\", \"data\": \"n\\n1\\n2\"\x7d"
      = .ok (.obj [("taskId", .str "t-3"), ("type", .str "analyze"), ("data", .str "n\n1\n2")])
  ∧ ((on_message "\x7b\"taskId\": \"t-3\", \"type\": \"analyze\", \"data\": \"n\\n1\\n2\"\x7d").log
      = [mkStatus (.str "t-3") "processing" [],
         .result ⟨.str "t-3", WORKER_NAME,
           process_task [("taskId", .str "t-3"), ("type", .str "analyze"), ("data", .str "n\n1\n2")]⟩]
    ∧ ((on_message "\x7b\"taskId\": \"t-3\", \"type\": \"analyze\", \"data\": \"n\\n1\\n2\"\x7d").log.filter
          (eventStatusIs "processing")).length = 1
    ∧ ((on_message "\x7b\"taskId\": \"t-3\", \"type\": \"analyze\", \"data\": \"n\\n1\\n2\"\x7d").log.filter
          eventIsResult).length = 1
    ∧ (on_message "\x7b\"taskId\": \"t-3\", \"type\": \"analyze\", \"data\": \"n\\n1\\n2\"\x7d").acked = true) :=
  ⟨rfl, analyze_processing_then_result _
    [("taskId", .str "t-3"), ("type", .str "analyze"), ("data", .str "n\n1\n2")] rfl rfl⟩

/-- C4 counterexample: on the payload consisting of the lines x, y, a
blank line and z, the first (CSV) tier already succeeds - pandas parses
any single-column text with x as the header - so the produced table has
the single column named x with the two rows y and z, not the claimed
column named values with rows x, y, z. -/
theorem fallback_payload_counterexample :
    ∃ a, process_task [("taskId", .str "t-4"), ("type", .str "analyze"), ("data", .str "x\ny\n\nz")]
        = .success a
      ∧ a.columns = ["x"]
      ∧ a.columns ≠ ["values"]
      ∧ a.row_count = 2
      ∧ a.summary.categorical = some [("x", ⟨2, [("y", 1), ("z", 1)]⟩)] :=
  ⟨_, rfl, rfl, by decide, rfl, rfl⟩

/-- C4 amended: payload parsing is tiered - delimited tabular text first,
then the array-of-records encoding, then the line-based fallback, each
tried only when the previous tier fails - but for the payload of lines x,
y, blank, z the FIRST tier succeeds, yielding a single column named x
with rows y and z (the blank line dropped).  The fallback representation
itself would indeed be a single values column with rows x, y, z; it is
reached only when both earlier tiers fail, for example on an empty
payload. -/
theorem tiered_parsing_amended :
    (∀ (d : JValue) (t : Table), tier_csv d = .ok t → parse_tiers d = .ok t)
  ∧ (∀ (d : JValue) (e : PyErr) (t : Table),
      tier_csv d = .error e → tier_json d = .ok t → parse_tiers d = .ok t)
  ∧ (∀ (d : JValue) (e1 e2 : PyErr),
      tier_csv d = .error e1 → tier_json d = .error e2 → parse_tiers d = tier_fallback d)
  ∧ read_csv "x\ny\n\nz" = .ok ⟨[("x", Col.object [some (.str "y"), some (.str "z")])], 2⟩
  ∧ (∃ a, process_task [("taskId", .str "t-4a"), ("type", .str "analyze"), ("data", .str "x\ny\n\nz")]
        = .success a
      ∧ a.columns = ["x"]
      ∧ a.row_count = 2
      ∧ a.preview = [[("x", PVal.str "y")], [("x", PVal.str "z")]])
  ∧ fallback_frame "x\ny\n\nz"
      = ⟨[("values", Col.object [some (.str "x"), some (.str "y"), some (.str "z")])], 3⟩ := by
  refine ⟨?_, ?_, ?_, rfl, ⟨_, rfl, rfl, rfl, rfl⟩, rfl⟩
  · intro d t h
    simp [parse_tiers, h]
  · intro d e t h1 h2
    simp [parse_tiers, h1, h2]
  · intro d e1 e2 h1 h2
    simp [parse_tiers, h1, h2]

/-- C4 witness: the tiering applied at concrete inputs - a one-column CSV
payload is taken by the first tier, and the empty payload falls through
both tiers to the fallback. -/
theorem tiered_parsing_witness :
    (tier_csv (.str "a\n1") = .ok ⟨[("a", Col.numeric [some 1])], 1⟩
      ∧ parse_tiers (.str "a\n1") = .ok ⟨[("a", Col.numeric [some 1])], 1⟩)
  ∧ (tier_csv (.str "") = .error ⟨"No columns to parse from file", "EmptyDataError"⟩
      ∧ tier_json (.str "") = .error jsonDecodeErr
      ∧ parse_tiers (.str "") = tier_fallback (.str "")) :=
  ⟨⟨rfl, tiered_parsing_amended.1 _ _ rfl⟩,
   ⟨rfl, rfl, tiered_parsing_amended.2.2.1 _ _ _ rfl rfl⟩⟩

/-- C5 counterexample: for the numeric column with values 1, 2, 3, 4 the
worker reports mean 5/2, median 5/2, min 1, max 4 as claimed, but the
reported standard deviation is the square root of 5/3 - the ddof-1 sample
variance pandas std uses by default - while the population variance of
those values is 5/4, and 5/3 is not 5/4.  So standardDeviation is not a
population statistic. -/
theorem std_not_population_counterexample :
    (∃ a, process_task [("taskId", .str "t-5"), ("type", .str "analyze"), ("data", .str "n\n1\n2\n3\n4")]
        = .success a
      ∧ a.summary.numeric
          = some [("n", ⟨.val (5/2), .val (5/2), .val (5/3), .val 1, .val 4⟩)])
  ∧ specPopulationVariance [1, 2, 3, 4] = 5/4
  ∧ ((5 : ℚ)/3) ≠ 5/4 := by
  refine ⟨⟨analyze ⟨[("n", Col.numeric [some 1, some 2, some 3, some 4])], 4⟩, rfl, ?_⟩,
    ?_, by norm_num⟩
  · rw [show (analyze ⟨[("n", Col.numeric [some 1, some 2, some 3, some 4])], 4⟩).summary.numeric
        = some [("n", mkNumericStats [some 1, some 2, some 3, some 4])] from rfl,
      mkNumericStats_one_to_four]
  · norm_num [specPopulationVariance, specMean]

/-- C5 amended: for a numeric column the worker reports mean, median,
min, max over the non-missing values, and a standard deviation whose
square is the SAMPLE variance (ddof = 1), not the population variance; in
particular for the values 1, 2, 3, 4 it reports mean 5/2, median 5/2, min
1, max 4 and squared standard deviation 5/3. -/
theorem numeric_stats_amended :
    (∃ a, process_task [("taskId", .str "t-5a"), ("type", .str "analyze"), ("data", .str "n\n1\n2\n3\n4")]
        = .success a
      ∧ a.summary.numeric
          = some [("n", ⟨.val (5/2), .val (5/2), .val (5/3), .val 1, .val 4⟩)])
  ∧ (∀ vals : List (Option ℚ), 2 ≤ (nonMissing vals).length →
        (mkNumericStats vals).mean = .val (specMean (nonMissing vals))
      ∧ (mkNumericStats vals).stdSq = .val (specSampleVariance (nonMissing vals))) := by
  constructor
  · refine ⟨analyze ⟨[("n", Col.numeric [some 1, some 2, some 3, some 4])], 4⟩, rfl, ?_⟩
    rw [show (analyze ⟨[("n", Col.numeric [some 1, some 2, some 3, some 4])], 4⟩).summary.numeric
        = some [("n", mkNumericStats [some 1, some 2, some 3, some 4])] from rfl,
      mkNumericStats_one_to_four]
  · intro vals h
    constructor
    · have hne : (nonMissing vals).length ≠ 0 := by omega
      simp [mkNumericStats, seriesMean, hne, specMean, qSum_eq_sum]
    · have hgt : ¬ ((nonMissing vals).length ≤ 1) := by omega
      simp [mkNumericStats, seriesStdSq, hgt, specSampleVariance, specMean, qSum_eq_sum, pow_two]

/-- C5 witness: the general statement applied to the column with values
1 and 2 around a missing cell. -/
theorem numeric_stats_witness :
    2 ≤ (nonMissing [some (1 : ℚ), none, some 2]).length
  ∧ (mkNumericStats [some (1 : ℚ), none, some 2]).mean
      = .val (specMean (nonMissing [some (1 : ℚ), none, some 2]))
  ∧ (mkNumericStats [some (1 : ℚ), none, some 2]).stdSq
      = .val (specSampleVariance (nonMissing [some (1 : ℚ), none, some 2])) :=
  ⟨by decide, (numeric_stats_amended.2 _ (by decide)).1, (numeric_stats_amended.2 _ (by decide)).2⟩

/-- C6 counterexample: for the CSV payload with columns a and b where
every field of b is empty, column b is an all-missing float64 column, and
the numeric summary DOES contain an entry for b - with NaN placeholders
for all five statistics - contradicting the claim that such a column
yields no entry. -/
theorem all_missing_column_entry_counterexample :
    ∃ a l, process_task [("taskId", .str "t-6"), ("type", .str "analyze"), ("data", .str "a,b\n1,\n2,")]
        = .success a
      ∧ a.summary.numeric = some l
      ∧ l.lookup "b" = some ⟨.nan, .nan, .nan, .nan, .nan⟩ :=
  ⟨_, _, rfl, rfl, rfl⟩

/-- C6 amended: a numeric column with zero non-missing values yields a
summary entry whose five statistics are all NaN (pandas reductions on an
all-missing column), rather than being omitted; in general the profile of
any column with no non-missing values is all NaN. -/
theorem all_missing_column_nan_amended :
    (∃ a, process_task [("taskId", .str "t-6a"), ("type", .str "analyze"), ("data", .str "a,b\n1,\n2,")]
        = .success a
      ∧ a.summary.numeric
          = some [("a", ⟨.val (3/2), .val (3/2), .val (1/2), .val 1, .val 2⟩),
                  ("b", ⟨.nan, .nan, .nan, .nan, .nan⟩)])
  ∧ (∀ vals : List (Option ℚ), nonMissing vals = [] →
        mkNumericStats vals = ⟨.nan, .nan, .nan, .nan, .nan⟩) := by
  constructor
  · refine ⟨analyze ⟨[("a", Col.numeric [some 1, some 2]), ("b", Col.numeric [none, none])], 2⟩,
      rfl, ?_⟩
    rw [show (analyze ⟨[("a", Col.numeric [some 1, some 2]), ("b", Col.numeric [none, none])], 2⟩).summary.numeric
        = some [("a", mkNumericStats [some 1, some 2]), ("b", mkNumericStats [none, none])] from rfl,
      mkNumericStats_one_two]
    exact rfl
  · intro vals h
    simp [mkNumericStats, h, seriesMean, seriesMedian, seriesStdSq, seriesMin, seriesMax, sortQ]

/-- C6 witness: the general all-NaN statement applied to a concrete
all-missing column. -/
theorem all_missing_column_nan_witness :
    nonMissing [(none : Option ℚ), none] = []
  ∧ mkNumericStats [(none : Option ℚ), none] = ⟨.nan, .nan, .nan, .nan, .nan⟩ :=
  ⟨rfl, all_missing_column_nan_amended.2 _ rfl⟩

/-- C7: process_task never propagates a failure to its caller: for every
input task it returns either a successful analysis of the parsed table,
or the error dict carrying the message and the exception class name of
the failure raised inside the tiers - never an unguarded fault. -/
theorem process_task_total (kvs : List (String × JValue)) :
    (∃ t, parse_tiers (getData kvs) = .ok t ∧ process_task kvs = .success (analyze t))
  ∨ (∃ e, parse_tiers (getData kvs) = .error e ∧ process_task kvs = .failure e.msg e.kind) := by
  cases h : parse_tiers (getData kvs) with
  | ok t => exact .inl ⟨t, rfl, by simp [process_task, h]⟩
  | error e => exact .inr ⟨e, rfl, by simp [process_task, h]⟩

/-- C8: when an analyze task fails inside the Task Processor, the error
descriptor is still wrapped into the result message and published after
the processing status, no error status is emitted, and the delivery is
acknowledged - a processing error is a completed business outcome. -/
theorem processing_error_still_published (body : String) (kvs : List (String × JValue))
    (m k : String)
    (h1 : json_loads body = .ok (.obj kvs))
    (h2 : isAnalyze (jget kvs "type") = true)
    (h3 : process_task kvs = .failure m k) :
    (on_message body).log
      = [mkStatus ((jget kvs "taskId").getD .null) "processing" [],
         .result ⟨(jget kvs "taskId").getD .null, WORKER_NAME, .failure m k⟩]
  ∧ (on_message body).log.filter (eventStatusIs "error") = []
  ∧ (on_message body).acked = true := by
  rw [on_message_obj body kvs h1, h2, h3]
  exact ⟨rfl, rfl, rfl⟩

/-- C8 witness: a concrete analyze task whose payload is the number 5; the
fallback tier raises AttributeError, process_task returns the error dict,
and the consumer still publishes it as the result. -/
theorem processing_error_still_published_witness :
    json_loads "\x7b\"taskId\": \"t-8\", \"type\": \"analyze\", \"data\": 5\x7d"
      = .ok (.obj [("taskId", .str "t-8"), ("type", .str "analyze"), ("data", .num 5)])
  ∧ process_task [("taskId", .str "t-8"), ("type", .str "analyze"), ("data", .num 5)]
      = .failure "object has no attribute strip" "AttributeError"
  ∧ ((on_message "\x7b\"taskId\": \"t-8\", \"type\": \"analyze\", \"data\": 5\x7d").log
      = [mkStatus (.str "t-8") "processing" [],
         .result ⟨.str "t-8", WORKER_NAME,
           .failure "object has no attribute strip" "AttributeError"⟩]
    ∧ (on_message "\x7b\"taskId\": \"t-8\", \"type\": \"analyze\", \"data\": 5\x7d").log.filter
        (eventStatusIs "error") = []
    ∧ (on_message "\x7b\"taskId\": \"t-8\", \"type\": \"analyze\", \"data\": 5\x7d").acked = true) :=
  ⟨rfl, rfl, processing_error_still_published _
    [("taskId", .str "t-8"), ("type", .str "analyze"), ("data", .num 5)] _ _ rfl rfl rfl⟩

/-- C9 counterexample: for a well-formed envelope without a taskId field,
the published processing status carries the JSON null identifier - the
value of Python task.get on an absent key - and null is not the empty
string the claim promises. -/
theorem missing_id_null_counterexample :
    (∃ rest, (on_message "\x7b\"type\": \"other\"\x7d").log
        = Event.status ⟨JValue.null, "processing", WORKER_NAME, []⟩ :: rest)
  ∧ JValue.null ≠ JValue.str "" :=
  ⟨⟨_, rfl⟩, fun h => JValue.noConfusion h⟩

/-- C9 amended: for a well-formed envelope in which the task id field is
absent, the consumer proceeds through the normal state machine without
crashing - the log is nonempty and the delivery acknowledged - and every
published message carries the null identifier (not the empty string). -/
theorem missing_id_proceeds_amended (body : String) (kvs : List (String × JValue))
    (h1 : json_loads body = .ok (.obj kvs))
    (h2 : jget kvs "taskId" = none) :
    (on_message body).acked = true
  ∧ (on_message body).log ≠ []
  ∧ ((on_message body).log.map eventTaskId).all jIsNull = true := by
  rw [on_message_obj body kvs h1]
  cases hA : isAnalyze (jget kvs "type") <;>
    simp [hA, h2, mkStatus, eventTaskId, jIsNull]

/-- C9 witness: a concrete envelope with no taskId proceeds with null
identifiers on every published message. -/
theorem missing_id_proceeds_witness :
    json_loads "\x7b\"type\": \"transform\"\x7d" = .ok (.obj [("type", .str "transform")])
  ∧ jget [("type", JValue.str "transform")] "taskId" = none
  ∧ ((on_message "\x7b\"type\": \"transform\"\x7d").acked = true
    ∧ (on_message "\x7b\"type\": \"transform\"\x7d").log ≠ []
    ∧ ((on_message "\x7b\"type\": \"transform\"\x7d").log.map eventTaskId).all jIsNull = true) :=
  ⟨rfl, rfl, missing_id_proceeds_amended _ [("type", .str "transform")] rfl rfl⟩

/-- C10: a task of kind analyze whose payload field is absent, and one
whose payload is the empty string, both produce a successful analysis
with zero rows, one column named values and an empty preview - the
fallback tier accepts the empty input - not an error dict. -/
theorem empty_payload_success :
    (∃ a, process_task [("taskId", .str "t-10"), ("type", .str "analyze")] = .success a
      ∧ a.row_count = 0
      ∧ a.column_count = 1
      ∧ a.columns = ["values"]
      ∧ a.preview = [])
  ∧ (∃ a, process_task [("taskId", .str "t-10"), ("type", .str "analyze"), ("data", .str "")]
        = .success a
      ∧ a.row_count = 0
      ∧ a.column_count = 1
      ∧ a.columns = ["values"]
      ∧ a.preview = []) :=
  ⟨⟨_, rfl, rfl, rfl, rfl, rfl⟩, ⟨_, rfl, rfl, rfl, rfl, rfl⟩⟩
